import Mathlib

/-!
Verification of the Mindmirror repository.

Part 1 embeds the answer-evaluation logic of the interview-responses API
route (`evaluateAnswer`) and the interview-completion XP/level logic of the
interview-complete API route, both translated from the TypeScript source.

Part 2 models the speech-analysis pipeline (AudioProcessor, FeatureExtractor,
FeatureFusion, SequenceModel, FeedbackGenerator).  The Python implementation
of that pipeline is not part of the provided source tree; only its README
description is.  Those definitions are therefore modelled from the spec and
are marked as such in their doc comments.
-/

namespace Mindmirror

/-- JavaScript `Math.round`: rounds half-way cases toward positive infinity. -/
def jsRound (x : ℚ) : ℤ := ⌊x + 1/2⌋

/-- JavaScript `Math.floor` on a rational value. -/
def jsFloor (x : ℚ) : ℤ := ⌊x⌋

/-!
## Answer evaluation (interview-responses route, `evaluateAnswer`)

The route derives a handful of signals from the raw `responseText` string
(word count via `split(" ")`, substring tests, two regular-expression tests)
and then scores the answer from those signals alone.  The signal derivation
(string and regex operations) is abstracted into the `AnswerSignals` input;
everything from the base-score computation onward is translated line by line
from the source.
-/

/-- The signals `evaluateAnswer` derives from its request before scoring:
`wordCount = responseText.split(" ").length`; `hasExamples`,
`hasTechnicalTerms`, `hasStructure`, `hasSpecificDetails` are the substring
and regex tests of the source; `mentionsTeam` is
`responseText.toLowerCase().includes("team")`; `questionCategory` and
`questionDifficulty` come straight from the request. -/
structure AnswerSignals where
  wordCount : ℕ
  hasExamples : Bool
  hasTechnicalTerms : Bool
  hasStructure : Bool
  hasSpecificDetails : Bool
  mentionsTeam : Bool
  questionCategory : String
  questionDifficulty : ℚ
deriving DecidableEq

/-- Base clarity score before difficulty adjustment:
`Math.min(100, Math.max(20, (wordCount / 80) * 100))`, `+10` for structure,
`+5` for more than 150 words. -/
def clarityBase (a : AnswerSignals) : ℚ :=
  let c : ℚ := min 100 (max 20 ((a.wordCount : ℚ) / 80 * 100))
  let c := if a.hasStructure then c + 10 else c
  if 150 < a.wordCount then c + 5 else c

/-- Base relevance score before difficulty adjustment. -/
def relevanceBase (a : AnswerSignals) : ℚ :=
  let r : ℚ := if a.hasTechnicalTerms then 85 else 60
  let r := if a.questionCategory == "Technical" && a.hasTechnicalTerms then r + 10 else r
  let r := if a.questionCategory == "Communication" && decide (100 < a.wordCount) then r + 5 else r
  if a.questionCategory == "Leadership" && a.mentionsTeam then r + 10 else r

/-- Base depth score before difficulty adjustment. -/
def depthBase (a : AnswerSignals) : ℚ :=
  let d : ℚ := if a.hasExamples then 90 else 70
  let d := if a.hasSpecificDetails then d + 10 else d
  if 200 < a.wordCount then d + 5 else d

/-- Base communication score before difficulty adjustment. -/
def communicationBase (a : AnswerSignals) : ℚ :=
  let c : ℚ := if 50 < a.wordCount then 85 else 60
  let c := if a.hasStructure then c + 10 else c
  if a.hasExamples then c + 5 else c

/-- `difficultyMultiplier = 1 + (questionDifficulty - 3) * 0.1`. -/
def difficultyMultiplier (a : AnswerSignals) : ℚ :=
  1 + (a.questionDifficulty - 3) * (1/10)

/-- The clamp `Math.min(100, Math.max(0, _))` applied to every component
after the difficulty adjustment. -/
def clampComponent (x : ℚ) : ℚ := min 100 (max 0 x)

/-- Clarity after difficulty adjustment and clamping. -/
def clarityAdjusted (a : AnswerSignals) : ℚ :=
  clampComponent (clarityBase a * difficultyMultiplier a)

/-- Relevance after difficulty adjustment and clamping. -/
def relevanceAdjusted (a : AnswerSignals) : ℚ :=
  clampComponent (relevanceBase a * difficultyMultiplier a)

/-- Depth after difficulty adjustment and clamping. -/
def depthAdjusted (a : AnswerSignals) : ℚ :=
  clampComponent (depthBase a * difficultyMultiplier a)

/-- Communication after difficulty adjustment and clamping. -/
def communicationAdjusted (a : AnswerSignals) : ℚ :=
  clampComponent (communicationBase a * difficultyMultiplier a)

/-- `overallScore = Math.round((clarity + relevance + depth + communication) / 4)`
over the clamped components. -/
def overallAnswerScore (a : AnswerSignals) : ℤ :=
  jsRound ((clarityAdjusted a + relevanceAdjusted a + depthAdjusted a
    + communicationAdjusted a) / 4)

/-- The strengths list, pushed in source order. -/
def answerStrengths (a : AnswerSignals) : List String :=
  (if 80 < clarityAdjusted a then ["Clear and well-structured response"] else [])
  ++ (if 80 < relevanceAdjusted a then ["Relevant technical knowledge demonstrated"] else [])
  ++ (if 80 < depthAdjusted a then ["Good use of examples and specific details"] else [])
  ++ (if 80 < communicationAdjusted a then ["Strong communication skills"] else [])
  ++ (if a.hasExamples then ["Excellent use of real-world examples"] else [])
  ++ (if a.hasTechnicalTerms && (a.questionCategory == "Technical")
      then ["Appropriate technical terminology"] else [])

/-- The improvements list, pushed in source order: one conditional entry per
check (clarity, relevance, depth, communication, word count, examples). -/
def answerImprovements (a : AnswerSignals) : List String :=
  (if clarityAdjusted a < 70
    then ["Structure your answer more clearly with logical flow"] else [])
  ++ (if relevanceAdjusted a < 70
    then ["Include more relevant details specific to the question"] else [])
  ++ (if depthAdjusted a < 70
    then ["Provide specific examples from your experience"] else [])
  ++ (if communicationAdjusted a < 70
    then ["Expand on your answer with more detail and context"] else [])
  ++ (if a.wordCount < 50 then ["Provide more comprehensive answers"] else [])
  ++ (if !a.hasExamples
    then ["Include concrete examples to illustrate your points"] else [])

/-- The overall feedback string, chosen by score band. -/
def answerFeedbackText (a : AnswerSignals) : String :=
  if 90 ≤ overallAnswerScore a then
    "Excellent response! You demonstrated strong knowledge, clear communication, and provided relevant examples. This is exactly what interviewers want to hear."
  else if 80 ≤ overallAnswerScore a then
    "Great answer with solid understanding and good structure. Minor improvements in detail or examples could make it even stronger."
  else if 70 ≤ overallAnswerScore a then
    "Good response that shows understanding. Focus on providing more specific examples and structuring your answer more clearly."
  else if 60 ≤ overallAnswerScore a then
    "Decent foundation, but your answer needs more development. Add specific examples, technical details, and clearer structure."
  else
    "Your answer needs significant improvement. Focus on providing specific examples, relevant details, and clearer explanations to demonstrate your expertise."

/-- The `detailedAnalysis` record returned by the route: each component is
`Math.round`ed. -/
structure DetailedAnalysis where
  clarity : ℤ
  relevance : ℤ
  depth : ℤ
  communication : ℤ
deriving DecidableEq

/-- The `EvaluationResponse` record returned by `evaluateAnswer`. -/
structure EvaluationResponse where
  score : ℤ
  feedback : String
  strengths : List String
  improvements : List String
  detailedAnalysis : DetailedAnalysis
deriving DecidableEq

/-- The scoring part of `evaluateAnswer` (interview-responses route),
translated from the source with string-derived signals abstracted into
`AnswerSignals`. -/
def evaluateAnswer (a : AnswerSignals) : EvaluationResponse :=
  { score := overallAnswerScore a
    feedback := answerFeedbackText a
    strengths := answerStrengths a
    improvements := answerImprovements a
    detailedAnalysis :=
      { clarity := jsRound (clarityAdjusted a)
        relevance := jsRound (relevanceAdjusted a)
        depth := jsRound (depthAdjusted a)
        communication := jsRound (communicationAdjusted a) } }

/-- The canonical order in which `evaluateAnswer` emits improvement
suggestions: clarity, relevance, depth, communication, word count, examples. -/
def canonicalImprovementOrder : List String :=
  ["Structure your answer more clearly with logical flow",
   "Include more relevant details specific to the question",
   "Provide specific examples from your experience",
   "Expand on your answer with more detail and context",
   "Provide more comprehensive answers",
   "Include concrete examples to illustrate your points"]

/-!
## Interview completion (interview-complete route)

XP and level bookkeeping performed by the `POST` handler of the
interview-complete route after all responses of a session are gathered.
-/

/-- The per-response data the completion route reads: `evaluation.score` and
`question_difficulty` of an `interview_responses` row. -/
structure ResponseRecord where
  evaluationScore : ℚ
  questionDifficulty : ℚ
deriving DecidableEq

/-- `overallScore = Math.round(sum of evaluation.score / responses.length)`. -/
def overallSessionScore (rs : List ResponseRecord) : ℤ :=
  jsRound ((rs.map (fun r => r.evaluationScore)).sum / (rs.length : ℚ))

/-- `difficultyBonus = sum of question_difficulty * 10`. -/
def difficultyBonus (rs : List ResponseRecord) : ℚ :=
  (rs.map (fun r => r.questionDifficulty * 10)).sum

/-- `xpEarned = Math.round(baseXP * scoreMultiplier + difficultyBonus)` with
`baseXP = 100` and `scoreMultiplier = overallScore / 100`. -/
def xpEarned (rs : List ResponseRecord) : ℤ :=
  jsRound ((100 : ℚ) * ((overallSessionScore rs : ℚ) / 100) + difficultyBonus rs)

/-- `Math.floor(totalXP / 1000) + 1`: 1000 XP per level. -/
def levelFromXP (totalXP : ℤ) : ℤ :=
  jsFloor ((totalXP : ℚ) / 1000) + 1

/-- The user-profile update of the completion route: `newTotalXP =
total_xp + xpEarned` and `newLevel = Math.floor(newTotalXP / 1000) + 1`. -/
structure CompletionUpdate where
  overallScore : ℤ
  xp : ℤ
  newTotalXP : ℤ
  newLevel : ℤ
deriving DecidableEq

/-- The interview-completion computation as one record. -/
def completeInterview (oldTotalXP : ℤ) (rs : List ResponseRecord) : CompletionUpdate :=
  { overallScore := overallSessionScore rs
    xp := xpEarned rs
    newTotalXP := oldTotalXP + xpEarned rs
    newLevel := levelFromXP (oldTotalXP + xpEarned rs) }

/-!
## Speech-analysis pipeline

The Python implementation (`src/core/audio_processor.py`,
`src/core/feature_extractor.py`, `src/core/ml_model.py`,
`src/utils/feedback_generator.py`) is not part of the provided source tree;
only the README describing it is.  The definitions below are therefore
modelled from the spec.  Numeric values are rationals; the sigmoid output
activation is modelled by a rational bounded activation with the same range.
-/

/-- Modelled from the spec: the pipeline error taxonomy (`UnsupportedFormat`,
`EmptyAudio`, `DimensionMismatch`, `ModelNotLoaded`, `InferenceError`,
`FeatureStreamUnavailable`). -/
inductive PipelineError where
  | unsupportedFormat : PipelineError
  | emptyAudio : PipelineError
  | dimensionMismatch : PipelineError
  | modelNotLoaded : PipelineError
  | inferenceError : PipelineError
  | featureStreamUnavailable : String → PipelineError
deriving DecidableEq

/-- Modelled from the spec: the closed question-category enumeration. -/
inductive Category where
  | technical : Category
  | behavioral : Category
  | situational : Category
deriving DecidableEq

/-- Modelled from the spec: the five independent prediction scalars. -/
structure PredictionSet where
  nervousness : ℚ
  confidence : ℚ
  fluency : ℚ
  pace : ℚ
  tone : ℚ
deriving DecidableEq

/-- Modelled from the spec: the per-dimension feedback thresholds. -/
structure Thresholds where
  confidence : ℚ
  nervousness : ℚ
  fluency : ℚ
  pace : ℚ
  tone : ℚ
deriving DecidableEq

/-- Modelled from the spec: the default thresholds of `settings.py`
(`CONFIDENCE_THRESHOLD = 0.7`, `NERVOUSNESS_THRESHOLD = 0.6`,
`FLUENCY_THRESHOLD = 0.6`, `PACE_THRESHOLD = 0.5`, `TONE_THRESHOLD = 0.5`). -/
def defaultThresholds : Thresholds :=
  { confidence := 7/10
    nervousness := 6/10
    fluency := 6/10
    pace := 1/2
    tone := 1/2 }

/-- Modelled from the spec: the structured feedback record with one pass/fail
verdict per dimension, an overall summary and ordered suggestions. -/
structure Feedback where
  summary : String
  confidencePass : Bool
  nervousnessPass : Bool
  fluencyPass : Bool
  pacePass : Bool
  tonePass : Bool
  suggestions : List String
deriving DecidableEq

/-- Modelled from the spec: how far a dimension fell short of its threshold
(zero when it passed); nervousness is inverted because lower is better. -/
def dimensionDeficit (p : PredictionSet) (t : Thresholds) : String → ℚ
  | "confidence" => max 0 (t.confidence - p.confidence)
  | "nervousness" => max 0 (p.nervousness - t.nervousness)
  | "fluency" => max 0 (t.fluency - p.fluency)
  | "pace" => max 0 (t.pace - p.pace)
  | _ => max 0 (t.tone - p.tone)

/-- Modelled from the spec: suggestion text per failing dimension. -/
def suggestionText : String → String
  | "confidence" => "Project more confidence in your delivery"
  | "nervousness" => "Work on calming techniques to reduce nervousness"
  | "fluency" => "Reduce filler words to improve fluency"
  | "pace" => "Adjust your speaking pace for clarity"
  | _ => "Add vocal variety to improve your tone"

/-- Insert into a list kept in descending key order. -/
def insertDesc (key : String → ℚ) (d : String) : List String → List String
  | [] => [d]
  | e :: rest => if key e < key d then d :: e :: rest else e :: insertDesc key d rest

/-- Insertion sort by descending key. -/
def sortDesc (key : String → ℚ) : List String → List String
  | [] => []
  | d :: rest => insertDesc key d (sortDesc key rest)

/-- Modelled from the spec: `FeedbackGenerator.generate` — per-dimension
pass/fail against the configured thresholds (confidence, fluency, pace and
tone pass when at or above threshold; nervousness passes when at or below),
an overall qualitative summary, and improvement suggestions for the failing
dimensions ordered worst-deficit first. -/
def generate (p : PredictionSet) (cat : Category) (t : Thresholds) : Feedback :=
  let failing := ["confidence", "nervousness", "fluency", "pace", "tone"].filter
    (fun d => 0 < dimensionDeficit p t d)
  let ranked := sortDesc (dimensionDeficit p t) failing
  let overall := (p.confidence + p.fluency + p.pace + p.tone + (1 - p.nervousness)) / 5
  { summary :=
      if 1/2 ≤ overall then
        match cat with
        | .technical => "Strong delivery for a technical question"
        | .behavioral => "Strong delivery for a behavioral question"
        | .situational => "Strong delivery for a situational question"
      else "Delivery needs improvement"
    confidencePass := t.confidence ≤ p.confidence
    nervousnessPass := p.nervousness ≤ t.nervousness
    fluencyPass := t.fluency ≤ p.fluency
    pacePass := t.pace ≤ p.pace
    tonePass := t.tone ≤ p.tone
    suggestions := ranked.map suggestionText }

/-- Modelled from the spec: the five feature streams. -/
inductive StreamId where
  | wav2vec : StreamId
  | hubert : StreamId
  | acoustic : StreamId
  | mel : StreamId
  | prosodic : StreamId
deriving DecidableEq, Fintype

/-- The fixed enumeration of all streams, in fusion order. -/
def allStreams : List StreamId :=
  [.wav2vec, .hubert, .acoustic, .mel, .prosodic]

/-- Modelled from the spec: a named mapping from stream identifier to a
numeric vector; a disabled/absent stream is `none` and is zero-filled by the
fusion stage. -/
structure FeatureVector where
  wav2vec : Option (List ℚ)
  hubert : Option (List ℚ)
  acoustic : Option (List ℚ)
  mel : Option (List ℚ)
  prosodic : Option (List ℚ)
deriving DecidableEq

/-- Stream lookup on a `FeatureVector`. -/
def FeatureVector.stream (fv : FeatureVector) : StreamId → Option (List ℚ)
  | .wav2vec => fv.wav2vec
  | .hubert => fv.hubert
  | .acoustic => fv.acoustic
  | .mel => fv.mel
  | .prosodic => fv.prosodic

/-- Dot product of two rational vectors (extra coordinates ignored). -/
def dotQ (a b : List ℚ) : ℚ := (List.zipWith (fun x y => x * y) a b).sum

/-- Matrix–vector product; the output length is the number of rows. -/
def matVec (m : List (List ℚ)) (v : List ℚ) : List ℚ :=
  m.map (fun row => dotQ row v)

/-- Scalar multiple of a vector. -/
def scaleVec (c : ℚ) (v : List ℚ) : List ℚ := v.map (fun x => c * x)

/-- Vector addition keeping the length of the first argument: the second
vector is implicitly zero-padded or truncated to the accumulator width. -/
def vecAdd : List ℚ → List ℚ → List ℚ
  | [], _ => []
  | a :: as, [] => a :: vecAdd as []
  | a :: as, b :: bs => (a + b) :: vecAdd as bs

/-- Sum of absolute values of a vector. -/
def sumAbs (v : List ℚ) : ℚ := (v.map (fun x => |x|)).sum

/-- Modelled from the spec: learned fusion parameters — the common output
dimensionality and one projection matrix per stream. -/
structure FusionParams where
  dim : ℕ
  wav2vecProj : List (List ℚ)
  hubertProj : List (List ℚ)
  acousticProj : List (List ℚ)
  melProj : List (List ℚ)
  prosodicProj : List (List ℚ)
deriving DecidableEq

/-- Projection matrix lookup on `FusionParams`. -/
def FusionParams.proj (fp : FusionParams) : StreamId → List (List ℚ)
  | .wav2vec => fp.wav2vecProj
  | .hubert => fp.hubertProj
  | .acoustic => fp.acousticProj
  | .mel => fp.melProj
  | .prosodic => fp.prosodicProj

/-- Modelled from the spec: the content-dependent raw attention score of a
stream — zero for an absent stream, positive (one plus the total magnitude of
the stream) for a present one. -/
def streamScore (fv : FeatureVector) (s : StreamId) : ℚ :=
  match fv.stream s with
  | none => 0
  | some v => 1 + sumAbs v

/-- Total raw attention score over all streams. -/
def totalScore (fv : FeatureVector) : ℚ :=
  (allStreams.map (fun s => streamScore fv s)).sum

/-- Modelled from the spec: the normalized attention weight of a stream
(in `[0,1]`, summing to one over the streams, zero for absent streams). -/
def attnWeight (fv : FeatureVector) (s : StreamId) : ℚ :=
  streamScore fv s / totalScore fv

/-- The weighted, projected contribution of one stream to the fused vector;
an absent stream contributes with weight zero. -/
def contribution (fp : FusionParams) (fv : FeatureVector) (s : StreamId) : List ℚ :=
  scaleVec (attnWeight fv s) (matVec (fp.proj s) ((fv.stream s).getD []))

/-- Modelled from the spec: `FeatureFusion.fuse` — project each stream to the
common dimensionality and combine with the attention weights; the output
width is `fp.dim` regardless of which streams are present. -/
def fuse (fp : FusionParams) (fv : FeatureVector) : List ℚ :=
  allStreams.foldl (fun acc s => vecAdd acc (contribution fp fv s))
    (List.replicate fp.dim 0)

/-- Modelled from the spec: a rational stand-in for the sigmoid output
activation; strictly between 0 and 1 for every input. -/
def boundedActivation (x : ℚ) : ℚ := 1/2 + x / (2 * (1 + |x|))

/-- Modelled from the spec: trained sequence-model parameters — one linear
output head (weights and bias) per predicted dimension. -/
structure ModelParams where
  nervousnessW : List ℚ
  nervousnessB : ℚ
  confidenceW : List ℚ
  confidenceB : ℚ
  fluencyW : List ℚ
  fluencyB : ℚ
  paceW : List ℚ
  paceB : ℚ
  toneW : List ℚ
  toneB : ℚ
deriving DecidableEq

/-- Modelled from the spec: `SequenceModel.predict` — stateless inference
with fixed trained parameters; each head ends in the bounded activation. -/
def predict (mp : ModelParams) (fused : List ℚ) : PredictionSet :=
  { nervousness := boundedActivation (dotQ mp.nervousnessW fused + mp.nervousnessB)
    confidence := boundedActivation (dotQ mp.confidenceW fused + mp.confidenceB)
    fluency := boundedActivation (dotQ mp.fluencyW fused + mp.fluencyB)
    pace := boundedActivation (dotQ mp.paceW fused + mp.paceB)
    tone := boundedActivation (dotQ mp.toneW fused + mp.toneB) }

/-- Modelled from the spec: the model parameters loaded once at startup and
shared read-only by every inference call. -/
structure InferenceState where
  params : ModelParams
deriving DecidableEq

/-- An inference call through the shared-state interface: it returns the
prediction and the (unchanged) state. -/
def predictCall (st : InferenceState) (fused : List ℚ) : PredictionSet × InferenceState :=
  (predict st.params fused, st)

/-- A prediction scalar is in range when it lies in `[0,1]`. -/
def scalarInRange (x : ℚ) : Prop := 0 ≤ x ∧ x ≤ 1

instance : DecidablePred scalarInRange := fun x =>
  inferInstanceAs (Decidable (0 ≤ x ∧ x ≤ 1))

/-- All five prediction scalars lie in `[0,1]`. -/
def predictionsInRange (p : PredictionSet) : Prop :=
  scalarInRange p.nervousness ∧ scalarInRange p.confidence
    ∧ scalarInRange p.fluency ∧ scalarInRange p.pace ∧ scalarInRange p.tone

instance : DecidablePred predictionsInRange := fun p =>
  inferInstanceAs (Decidable (scalarInRange p.nervousness ∧ scalarInRange p.confidence
    ∧ scalarInRange p.fluency ∧ scalarInRange p.pace ∧ scalarInRange p.tone))

/-- Modelled from the spec: the numeric-instability guard — a prediction set
with any value outside `[0,1]` is surfaced as `InferenceError`, never
clamped. -/
def checkPredictions (p : PredictionSet) : Except PipelineError PredictionSet :=
  if predictionsInRange p then .ok p else .error .inferenceError

/-- Modelled from the spec: an audio sample — a waveform of amplitudes and a
sample rate. -/
structure AudioSample where
  samples : List ℚ
  rate : ℕ
deriving DecidableEq

/-- Modelled from the spec: a contiguous voiced sub-range of the audio,
identified by start index and length in samples. -/
structure VoiceSegment where
  start : ℕ
  len : ℕ
deriving DecidableEq

/-- Duration of a segment in seconds at a given sample rate. -/
def segmentDuration (rate : ℕ) (s : VoiceSegment) : ℚ := (s.len : ℚ) / (rate : ℚ)

/-- Peak amplitude of a waveform. -/
def peakAmplitude (xs : List ℚ) : ℚ := (xs.map (fun x => |x|)).foldr max 0

/-- Modelled from the spec: peak normalization — scale the waveform so its
peak amplitude is one (silence is left unchanged). -/
def normalizeAudio (xs : List ℚ) : List ℚ :=
  let m := peakAmplitude xs
  if m = 0 then xs else xs.map (fun x => x / m)

/-- Worker for `vadSegments`: walk the waveform accumulating the current
voiced run (start index and length), emitting a segment when a run ends. -/
def vadGo (thr : ℚ) (i : ℕ) (cur : Option (ℕ × ℕ)) : List ℚ → List VoiceSegment
  | [] =>
    match cur with
    | some (s, l) => [⟨s, l⟩]
    | none => []
  | x :: rest =>
    if thr ≤ |x| then
      match cur with
      | some (s, l) => vadGo thr (i + 1) (some (s, l + 1)) rest
      | none => vadGo thr (i + 1) (some (i, 1)) rest
    else
      match cur with
      | some (s, l) => ⟨s, l⟩ :: vadGo thr (i + 1) none rest
      | none => vadGo thr (i + 1) none rest

/-- Modelled from the spec: energy-based voice-activity detection — the
ordered, non-overlapping maximal runs of samples whose amplitude reaches the
VAD threshold. -/
def vadSegments (thr : ℚ) (xs : List ℚ) : List VoiceSegment :=
  vadGo thr 0 none xs

/-- Modelled from the spec: the configuration surface of the pipeline —
target sample rate, minimum voiced duration, VAD threshold, filler-word
duration bound, which feature streams are enabled, and the feedback
thresholds. -/
structure AnalysisConfig where
  targetRate : ℕ
  minVoicedDuration : ℚ
  vadThreshold : ℚ
  fillerMaxDuration : ℚ
  enableWav2vec : Bool
  enableHubert : Bool
  enableAcoustic : Bool
  enableMel : Bool
  enableProsodic : Bool
  thresholds : Thresholds
deriving DecidableEq

/-- The result of `AudioProcessor.process`: normalized audio, the kept voiced
segments and the filler-word count. -/
structure ProcessedAudio where
  normalized : List ℚ
  segments : List VoiceSegment
  fillerWordCount : ℕ
deriving DecidableEq

/-- Modelled from the spec: `AudioProcessor.process` — normalize, run VAD,
discard segments shorter than the configured minimum voiced duration, count
filler-word bursts (detected voiced runs too short to be speech), and fail
with `UnsupportedFormat` when the input cannot be decoded (zero sample rate)
or `EmptyAudio` when no voiced segment of at least the minimum duration
remains. -/
def process (cfg : AnalysisConfig) (audio : AudioSample) :
    Except PipelineError ProcessedAudio :=
  if audio.rate = 0 then .error .unsupportedFormat
  else
    let norm := normalizeAudio audio.samples
    let segs := vadSegments cfg.vadThreshold norm
    let kept := segs.filter (fun s => cfg.minVoicedDuration ≤ segmentDuration audio.rate s)
    if kept.isEmpty then .error .emptyAudio
    else
      .ok { normalized := norm
            segments := kept
            fillerWordCount :=
              (segs.filter (fun s => segmentDuration audio.rate s < cfg.fillerMaxDuration)).length }

/-- Mean of a waveform (zero for the empty waveform). -/
def meanQ (xs : List ℚ) : ℚ := xs.sum / (xs.length : ℚ)

/-- Modelled from the spec: a pooled self-supervised embedding stand-in — a
fixed-length vector of pooled signal statistics.  The spec gives 768 as an
example dimensionality; the model uses a small fixed dimensionality since the
fusion stage projects every stream to a common width anyway. -/
def pooledEmbedding (xs : List ℚ) : List ℚ :=
  [meanQ xs, peakAmplitude xs, sumAbs xs / ((xs.length : ℚ) + 1)]

/-- Modelled from the spec: classical acoustic descriptors (fixed
dimensionality). -/
def acousticFeatures (xs : List ℚ) : List ℚ :=
  [meanQ xs, peakAmplitude xs, sumAbs xs, (xs.length : ℚ)]

/-- Modelled from the spec: mel-spectrogram summary statistics (low, fixed
dimensionality). -/
def melFeatures (xs : List ℚ) : List ℚ :=
  [meanQ xs, peakAmplitude xs, sumAbs xs, 0, 0, 0, (xs.length : ℚ)]

/-- Modelled from the spec: prosodic features — speaking rate, pause ratio,
pitch variance and energy variance stand-ins (fixed dimensionality). -/
def prosodicFeatures (xs : List ℚ) : List ℚ :=
  [(xs.length : ℚ), meanQ xs, peakAmplitude xs - meanQ xs, sumAbs xs]

/-- Modelled from the spec: `FeatureExtractor.extract` — compute the enabled
streams independently; a stream disabled by configuration is absent (`none`)
and is zero-filled at fusion, never treated as an error. -/
def extract (cfg : AnalysisConfig) (norm : List ℚ) : FeatureVector :=
  { wav2vec := if cfg.enableWav2vec then some (pooledEmbedding norm) else none
    hubert := if cfg.enableHubert then some (pooledEmbedding norm) else none
    acoustic := if cfg.enableAcoustic then some (acousticFeatures norm) else none
    mel := if cfg.enableMel then some (melFeatures norm) else none
    prosodic := if cfg.enableProsodic then some (prosodicFeatures norm) else none }

/-- The result of a full pipeline invocation: either a clearly-flagged
low-confidence empty-audio result (no predictions), or predictions plus
feedback. -/
structure AnalysisResult where
  emptyAudioFlagged : Bool
  lowConfidence : Bool
  predictions : Option PredictionSet
  feedback : Option Feedback
  fillerWordCount : ℕ
deriving DecidableEq

/-- Modelled from the spec: the full pipeline — audio processing, feature
extraction, fusion, inference, prediction validation and feedback.  An
`EmptyAudio` processing failure short-circuits to a flagged low-confidence
result; a missing model fails with `ModelNotLoaded`; out-of-range predictions
fail with `InferenceError`. -/
def analyze (cfg : AnalysisConfig) (model : Option ModelParams) (fp : FusionParams)
    (cat : Category) (audio : AudioSample) : Except PipelineError AnalysisResult :=
  match process cfg audio with
  | .error .emptyAudio =>
    .ok { emptyAudioFlagged := true
          lowConfidence := true
          predictions := none
          feedback := none
          fillerWordCount := 0 }
  | .error e => .error e
  | .ok pa =>
    match model with
    | none => .error .modelNotLoaded
    | some mp =>
      let fv := extract cfg pa.normalized
      let fused := fuse fp fv
      match checkPredictions (predict mp fused) with
      | .error e => .error e
      | .ok p =>
        .ok { emptyAudioFlagged := false
              lowConfidence := false
              predictions := some p
              feedback := some (generate p cat cfg.thresholds)
              fillerWordCount := pa.fillerWordCount }

/-!
## Theorems
-/

theorem jsRound_nonneg {x : ℚ} (hx : 0 ≤ x) : 0 ≤ jsRound x := by
  unfold jsRound
  have h : (0 : ℚ) ≤ x + 1/2 := by linarith
  exact Int.le_floor.mpr (by exact_mod_cast h)

theorem jsRound_le_of_le {x : ℚ} {b : ℤ} (hx : x ≤ b) : jsRound x ≤ b := by
  unfold jsRound
  exact Int.floor_le_iff.mpr (by linarith)

theorem le_jsRound_of_le {a : ℤ} {x : ℚ} (hx : (a : ℚ) ≤ x) : a ≤ jsRound x := by
  unfold jsRound
  exact Int.le_floor.mpr (by linarith)

theorem clampComponent_nonneg (x : ℚ) : 0 ≤ clampComponent x := by
  unfold clampComponent
  exact le_min (by norm_num) (le_max_left 0 x)

theorem clampComponent_le (x : ℚ) : clampComponent x ≤ 100 :=
  min_le_left 100 _

theorem clarityAdjusted_mem (a : AnswerSignals) :
    0 ≤ clarityAdjusted a ∧ clarityAdjusted a ≤ 100 :=
  ⟨clampComponent_nonneg _, clampComponent_le _⟩

theorem relevanceAdjusted_mem (a : AnswerSignals) :
    0 ≤ relevanceAdjusted a ∧ relevanceAdjusted a ≤ 100 :=
  ⟨clampComponent_nonneg _, clampComponent_le _⟩

theorem depthAdjusted_mem (a : AnswerSignals) :
    0 ≤ depthAdjusted a ∧ depthAdjusted a ≤ 100 :=
  ⟨clampComponent_nonneg _, clampComponent_le _⟩

theorem communicationAdjusted_mem (a : AnswerSignals) :
    0 ≤ communicationAdjusted a ∧ communicationAdjusted a ≤ 100 :=
  ⟨clampComponent_nonneg _, clampComponent_le _⟩

/-- C9: for every evaluation request, `evaluateAnswer` returns a score and
detailedAnalysis components (clarity, relevance, depth, communication) that
are all integers in `[0,100]`: each component is clamped with min/max bounds
after the difficulty adjustment, and the overall score is the rounded mean of
the four clamped components. -/
theorem evaluateAnswer_score_and_components_bounded (a : AnswerSignals) :
    (0 ≤ (evaluateAnswer a).score ∧ (evaluateAnswer a).score ≤ 100)
    ∧ (0 ≤ (evaluateAnswer a).detailedAnalysis.clarity
        ∧ (evaluateAnswer a).detailedAnalysis.clarity ≤ 100)
    ∧ (0 ≤ (evaluateAnswer a).detailedAnalysis.relevance
        ∧ (evaluateAnswer a).detailedAnalysis.relevance ≤ 100)
    ∧ (0 ≤ (evaluateAnswer a).detailedAnalysis.depth
        ∧ (evaluateAnswer a).detailedAnalysis.depth ≤ 100)
    ∧ (0 ≤ (evaluateAnswer a).detailedAnalysis.communication
        ∧ (evaluateAnswer a).detailedAnalysis.communication ≤ 100)
    ∧ (evaluateAnswer a).score =
        jsRound ((clarityAdjusted a + relevanceAdjusted a + depthAdjusted a
          + communicationAdjusted a) / 4) := by
  obtain ⟨hc0, hc1⟩ := clarityAdjusted_mem a
  obtain ⟨hr0, hr1⟩ := relevanceAdjusted_mem a
  obtain ⟨hd0, hd1⟩ := depthAdjusted_mem a
  obtain ⟨hm0, hm1⟩ := communicationAdjusted_mem a
  refine ⟨⟨?_, ?_⟩, ⟨?_, ?_⟩, ⟨?_, ?_⟩, ⟨?_, ?_⟩, ⟨?_, ?_⟩, rfl⟩
  · exact jsRound_nonneg (by linarith)
  · exact jsRound_le_of_le (b := 100) (by push_cast; linarith)
  · exact jsRound_nonneg hc0
  · exact jsRound_le_of_le (b := 100) (by push_cast; linarith)
  · exact jsRound_nonneg hr0
  · exact jsRound_le_of_le (b := 100) (by push_cast; linarith)
  · exact jsRound_nonneg hd0
  · exact jsRound_le_of_le (b := 100) (by push_cast; linarith)
  · exact jsRound_nonneg hm0
  · exact jsRound_le_of_le (b := 100) (by push_cast; linarith)

/-- C8, counterexample: on a one-word answer to a difficulty-1 question with
none of the content signals, `evaluateAnswer` emits six improvement
suggestions, so the suggestions list is not bounded by five. -/
theorem evaluateAnswer_six_improvements :
    ((evaluateAnswer ⟨1, false, false, false, false, false, "General", 1⟩).improvements.length = 6)
    ∧ ¬ ((evaluateAnswer ⟨1, false, false, false, false, false, "General", 1⟩).improvements.length ≤ 5) := by
  have h : (evaluateAnswer ⟨1, false, false, false, false, false, "General", 1⟩).improvements.length = 6 := by
    norm_num [evaluateAnswer, answerImprovements, clarityAdjusted, relevanceAdjusted,
      depthAdjusted, communicationAdjusted, clarityBase, relevanceBase, depthBase,
      communicationBase, clampComponent, difficultyMultiplier, min_def, max_def]
  exact ⟨h, by omega⟩

/-- C8, amended: for every evaluation request, the produced feedback summary
string is non-empty and the improvement-suggestions list has length at most
six. -/
theorem evaluateAnswer_feedback_nonempty_and_improvements_le_six (a : AnswerSignals) :
    (evaluateAnswer a).feedback ≠ "" ∧ (evaluateAnswer a).improvements.length ≤ 6 := by
  constructor
  · show answerFeedbackText a ≠ ""
    unfold answerFeedbackText
    split_ifs <;> decide
  · show (answerImprovements a).length ≤ 6
    unfold answerImprovements
    split_ifs <;> simp

/-- C5, counterexample: on a 52-word answer with no technical terms (and no
other content signals, difficulty 3), relevance scores 60 and clarity 65, so
relevance is the worse-performing dimension; yet the clarity suggestion comes
first in the improvements list — the list is not ordered worst-performing
first. -/
theorem evaluateAnswer_improvements_not_worst_first :
    (evaluateAnswer ⟨52, false, false, false, false, false, "General", 3⟩).improvements =
      ["Structure your answer more clearly with logical flow",
       "Include more relevant details specific to the question",
       "Include concrete examples to illustrate your points"]
    ∧ (evaluateAnswer ⟨52, false, false, false, false, false, "General", 3⟩).detailedAnalysis.relevance <
      (evaluateAnswer ⟨52, false, false, false, false, false, "General", 3⟩).detailedAnalysis.clarity := by
  constructor
  · norm_num [evaluateAnswer, answerImprovements, clarityAdjusted, relevanceAdjusted,
      depthAdjusted, communicationAdjusted, clarityBase, relevanceBase, depthBase,
      communicationBase, clampComponent, difficultyMultiplier, min_def, max_def]
  · norm_num [evaluateAnswer, jsRound, clarityAdjusted, relevanceAdjusted, clarityBase,
      relevanceBase, clampComponent, difficultyMultiplier, min_def, max_def]

/-- C5, amended: the improvement suggestions of `evaluateAnswer` appear in a
fixed check order — clarity, relevance, depth, communication, word count,
examples — independent of how badly each dimension scored (the list is always
a sublist of the canonical order). -/
theorem evaluateAnswer_improvements_fixed_order (a : AnswerSignals) :
    (evaluateAnswer a).improvements.Sublist canonicalImprovementOrder := by
  show (answerImprovements a).Sublist canonicalImprovementOrder
  unfold answerImprovements canonicalImprovementOrder
  split_ifs <;> decide

/-- C10: for a non-empty response list with per-response scores in `[0,100]`
and non-negative difficulties, the earned XP is non-negative, the new total
XP is the old total plus the earned XP, the new level is recomputed as
`floor(totalXP/1000) + 1`, and completing an interview never decreases the
total XP or the level. -/
theorem completeInterview_xp_level_monotone (oldTotalXP : ℤ) (rs : List ResponseRecord)
    (_hne : rs ≠ [])
    (hscore : ∀ r ∈ rs, 0 ≤ r.evaluationScore ∧ r.evaluationScore ≤ 100)
    (hdiff : ∀ r ∈ rs, 0 ≤ r.questionDifficulty) :
    0 ≤ xpEarned rs
    ∧ (completeInterview oldTotalXP rs).newTotalXP = oldTotalXP + xpEarned rs
    ∧ (completeInterview oldTotalXP rs).newLevel
        = levelFromXP (oldTotalXP + xpEarned rs)
    ∧ oldTotalXP ≤ (completeInterview oldTotalXP rs).newTotalXP
    ∧ levelFromXP oldTotalXP ≤ (completeInterview oldTotalXP rs).newLevel := by
  have hsum : 0 ≤ (rs.map (fun r => r.evaluationScore)).sum := by
    apply List.sum_nonneg
    intro x hx
    obtain ⟨r, hr, rfl⟩ := List.mem_map.mp hx
    exact (hscore r hr).1
  have hoverall : 0 ≤ overallSessionScore rs := by
    apply jsRound_nonneg
    apply div_nonneg hsum
    positivity
  have hbonus : 0 ≤ difficultyBonus rs := by
    apply List.sum_nonneg
    intro x hx
    obtain ⟨r, hr, rfl⟩ := List.mem_map.mp hx
    have := hdiff r hr
    positivity
  have hxp : 0 ≤ xpEarned rs := by
    apply jsRound_nonneg
    have : (0 : ℚ) ≤ (overallSessionScore rs : ℚ) := by exact_mod_cast hoverall
    have h100 : (100 : ℚ) * ((overallSessionScore rs : ℚ) / 100) = (overallSessionScore rs : ℚ) := by
      ring
    rw [h100]
    linarith
  refine ⟨hxp, rfl, rfl, by simpa [completeInterview] using hxp, ?_⟩
  show levelFromXP oldTotalXP ≤ levelFromXP (oldTotalXP + xpEarned rs)
  unfold levelFromXP jsFloor
  have hle : (oldTotalXP : ℚ) / 1000 ≤ ((oldTotalXP + xpEarned rs : ℤ) : ℚ) / 1000 := by
    apply div_le_div_of_nonneg_right ?_ (by norm_num)
    · exact_mod_cast by linarith
  exact add_le_add_right (Int.floor_le_floor hle) 1

/-- Witness for C10 at a one-response session scoring 80 with difficulty 2
and an old total of 500 XP. -/
theorem completeInterview_xp_level_monotone_witness :
    0 ≤ xpEarned [⟨80, 2⟩]
    ∧ (completeInterview 500 [⟨80, 2⟩]).newTotalXP = 500 + xpEarned [⟨80, 2⟩]
    ∧ (completeInterview 500 [⟨80, 2⟩]).newLevel
        = levelFromXP (500 + xpEarned [⟨80, 2⟩])
    ∧ 500 ≤ (completeInterview 500 [⟨80, 2⟩]).newTotalXP
    ∧ levelFromXP 500 ≤ (completeInterview 500 [⟨80, 2⟩]).newLevel :=
  completeInterview_xp_level_monotone 500 [⟨80, 2⟩] (by simp)
    (by intro r hr; rw [List.mem_singleton] at hr; subst hr; constructor <;> norm_num)
    (by intro r hr; rw [List.mem_singleton] at hr; subst hr; norm_num)

/-- C4: `generate` compares each of the five prediction dimensions against a
per-dimension threshold (confidence, fluency, pace and tone pass at or above
threshold, nervousness passes at or below), every one of which is taken from
the configuration passed in and so can be overridden, and the defaults are
confidence 0.7, nervousness 0.6, fluency 0.6, pace 0.5, tone 0.5. -/
theorem generate_per_dimension_thresholds (p : PredictionSet) (cat : Category) (t : Thresholds) :
    ((generate p cat t).confidencePass = true ↔ t.confidence ≤ p.confidence)
    ∧ ((generate p cat t).nervousnessPass = true ↔ p.nervousness ≤ t.nervousness)
    ∧ ((generate p cat t).fluencyPass = true ↔ t.fluency ≤ p.fluency)
    ∧ ((generate p cat t).pacePass = true ↔ t.pace ≤ p.pace)
    ∧ ((generate p cat t).tonePass = true ↔ t.tone ≤ p.tone)
    ∧ defaultThresholds.confidence = 7/10
    ∧ defaultThresholds.nervousness = 6/10
    ∧ defaultThresholds.fluency = 6/10
    ∧ defaultThresholds.pace = 1/2
    ∧ defaultThresholds.tone = 1/2 := by
  refine ⟨?_, ?_, ?_, ?_, ?_, rfl, rfl, rfl, rfl, rfl⟩ <;> simp [generate]

/-- C7: on a prediction set whose confidence is 0.75, overriding only the
confidence threshold from the default 0.7 to 0.9 flips the confidence verdict
from pass to fail and leaves the verdicts of the other four dimensions
unchanged. -/
theorem generate_confidence_override_flips_only_confidence
    (p : PredictionSet) (cat : Category) (hp : p.confidence = 3/4) :
    (generate p cat defaultThresholds).confidencePass = true
    ∧ (generate p cat { defaultThresholds with confidence := 9/10 }).confidencePass = false
    ∧ (generate p cat { defaultThresholds with confidence := 9/10 }).nervousnessPass
        = (generate p cat defaultThresholds).nervousnessPass
    ∧ (generate p cat { defaultThresholds with confidence := 9/10 }).fluencyPass
        = (generate p cat defaultThresholds).fluencyPass
    ∧ (generate p cat { defaultThresholds with confidence := 9/10 }).pacePass
        = (generate p cat defaultThresholds).pacePass
    ∧ (generate p cat { defaultThresholds with confidence := 9/10 }).tonePass
        = (generate p cat defaultThresholds).tonePass := by
  refine ⟨?_, ?_, rfl, rfl, rfl, rfl⟩
  · simp [generate, defaultThresholds, hp]
    norm_num
  · simp [generate, defaultThresholds, hp]
    norm_num

/-- Witness for C7 at the prediction set (0.5, 0.75, 0.5, 0.5, 0.5) and a
technical question. -/
theorem generate_confidence_override_witness :
    (generate ⟨1/2, 3/4, 1/2, 1/2, 1/2⟩ .technical defaultThresholds).confidencePass = true
    ∧ (generate ⟨1/2, 3/4, 1/2, 1/2, 1/2⟩ .technical
        { defaultThresholds with confidence := 9/10 }).confidencePass = false
    ∧ (generate ⟨1/2, 3/4, 1/2, 1/2, 1/2⟩ .technical
        { defaultThresholds with confidence := 9/10 }).nervousnessPass
        = (generate ⟨1/2, 3/4, 1/2, 1/2, 1/2⟩ .technical defaultThresholds).nervousnessPass
    ∧ (generate ⟨1/2, 3/4, 1/2, 1/2, 1/2⟩ .technical
        { defaultThresholds with confidence := 9/10 }).fluencyPass
        = (generate ⟨1/2, 3/4, 1/2, 1/2, 1/2⟩ .technical defaultThresholds).fluencyPass
    ∧ (generate ⟨1/2, 3/4, 1/2, 1/2, 1/2⟩ .technical
        { defaultThresholds with confidence := 9/10 }).pacePass
        = (generate ⟨1/2, 3/4, 1/2, 1/2, 1/2⟩ .technical defaultThresholds).pacePass
    ∧ (generate ⟨1/2, 3/4, 1/2, 1/2, 1/2⟩ .technical
        { defaultThresholds with confidence := 9/10 }).tonePass
        = (generate ⟨1/2, 3/4, 1/2, 1/2, 1/2⟩ .technical defaultThresholds).tonePass :=
  generate_confidence_override_flips_only_confidence ⟨1/2, 3/4, 1/2, 1/2, 1/2⟩ .technical rfl

/-- C2: with fixed trained model parameters, inference is a deterministic,
stateless function — two successive `predictCall`s on the identical fused
representation yield identical prediction sets and leave the shared state
unchanged. -/
theorem predictCall_deterministic_stateless (st : InferenceState) (fused : List ℚ) :
    (predictCall st fused).1 = (predictCall (predictCall st fused).2 fused).1
    ∧ (predictCall st fused).2 = st
    ∧ (predictCall (predictCall st fused).2 fused).2 = st :=
  ⟨rfl, rfl, rfl⟩

theorem vecAdd_length (a b : List ℚ) : (vecAdd a b).length = a.length := by
  induction a generalizing b with
  | nil => rfl
  | cons x xs ih => cases b <;> simp [vecAdd, ih]

theorem scaleVec_zero (v : List ℚ) : scaleVec 0 v = List.replicate v.length 0 := by
  induction v with
  | nil => rfl
  | cons x xs ih =>
    simp_all [scaleVec, List.replicate_succ]

theorem sumAbs_nonneg (v : List ℚ) : 0 ≤ sumAbs v := by
  apply List.sum_nonneg
  intro x hx
  obtain ⟨y, _, rfl⟩ := List.mem_map.mp hx
  exact abs_nonneg y

theorem streamScore_nonneg (fv : FeatureVector) (s : StreamId) : 0 ≤ streamScore fv s := by
  unfold streamScore
  rcases h : fv.stream s with _ | v
  · exact le_refl 0
  · show (0 : ℚ) ≤ 1 + sumAbs v
    have := sumAbs_nonneg v
    linarith

theorem mem_allStreams (s : StreamId) : s ∈ allStreams := by
  cases s <;> simp [allStreams]

theorem streamScore_le_totalScore (fv : FeatureVector) (s : StreamId) :
    streamScore fv s ≤ totalScore fv := by
  apply List.single_le_sum
  · intro x hx
    obtain ⟨y, _, rfl⟩ := List.mem_map.mp hx
    exact streamScore_nonneg fv y
  · exact List.mem_map.mpr ⟨s, mem_allStreams s, rfl⟩

theorem totalScore_pos (fv : FeatureVector) (h : ∃ s, (fv.stream s).isSome = true) :
    0 < totalScore fv := by
  obtain ⟨s, hs⟩ := h
  obtain ⟨v, hv⟩ := Option.isSome_iff_exists.mp hs
  have h1 : (1 : ℚ) ≤ streamScore fv s := by
    unfold streamScore
    rw [hv]
    show (1 : ℚ) ≤ 1 + sumAbs v
    have := sumAbs_nonneg v
    linarith
  have h2 := streamScore_le_totalScore fv s
  linarith

/-- C6: for every feature vector (any subset of streams present), `fuse`
produces an output of the constant configured dimensionality, the
per-stream attention weights lie in `[0,1]` and sum to one across the
streams, and an absent stream gets weight zero and contributes a zero
vector. -/
theorem fuse_constant_width_and_attention_weights (fp : FusionParams) (fv : FeatureVector)
    (h : ∃ s, (fv.stream s).isSome = true) :
    (fuse fp fv).length = fp.dim
    ∧ (∀ s, 0 ≤ attnWeight fv s ∧ attnWeight fv s ≤ 1)
    ∧ (allStreams.map (fun s => attnWeight fv s)).sum = 1
    ∧ (∀ s, fv.stream s = none →
        attnWeight fv s = 0
        ∧ contribution fp fv s = List.replicate (fp.proj s).length 0) := by
  have hpos := totalScore_pos fv h
  have hne : totalScore fv ≠ 0 := ne_of_gt hpos
  refine ⟨?_, ?_, ?_, ?_⟩
  · simp [fuse, allStreams, vecAdd_length]
  · intro s
    constructor
    · exact div_nonneg (streamScore_nonneg fv s) (le_of_lt hpos)
    · exact (div_le_one hpos).mpr (streamScore_le_totalScore fv s)
  · simp only [allStreams, List.map_cons, List.map_nil, List.sum_cons, List.sum_nil,
      add_zero, attnWeight]
    field_simp
    simp [totalScore, allStreams]
  · intro s hs
    have hw : attnWeight fv s = 0 := by
      unfold attnWeight streamScore
      rw [hs]
      simp
    refine ⟨hw, ?_⟩
    unfold contribution
    rw [hw, scaleVec_zero]
    congr 1
    simp [matVec]

/-- Witness for C6 at a feature vector with only the wav2vec stream present
and a two-row projection. -/
theorem fuse_constant_width_witness :
    (fuse ⟨2, [[1], [0]], [], [], [], []⟩ ⟨some [1], none, none, none, none⟩).length
      = (⟨2, [[1], [0]], [], [], [], []⟩ : FusionParams).dim
    ∧ (∀ s, 0 ≤ attnWeight ⟨some [1], none, none, none, none⟩ s
        ∧ attnWeight ⟨some [1], none, none, none, none⟩ s ≤ 1)
    ∧ (allStreams.map
        (fun s => attnWeight ⟨some [1], none, none, none, none⟩ s)).sum = 1
    ∧ (∀ s, FeatureVector.stream ⟨some [1], none, none, none, none⟩ s = none →
        attnWeight ⟨some [1], none, none, none, none⟩ s = 0
        ∧ contribution ⟨2, [[1], [0]], [], [], [], []⟩ ⟨some [1], none, none, none, none⟩ s
          = List.replicate ((⟨2, [[1], [0]], [], [], [], []⟩ : FusionParams).proj s).length 0) :=
  fuse_constant_width_and_attention_weights ⟨2, [[1], [0]], [], [], [], []⟩
    ⟨some [1], none, none, none, none⟩ ⟨.wav2vec, by decide⟩

theorem checkPredictions_ok_iff {p q : PredictionSet} :
    checkPredictions p = .ok q ↔ predictionsInRange p ∧ p = q := by
  unfold checkPredictions
  split_ifs with h <;> simp [h]

/-- C3: when voice-activity detection finds no voiced segment of at least the
configured minimum duration, `process` fails with `EmptyAudio` and the
pipeline short-circuits to a flagged low-confidence result with no
predictions instead of crashing or emitting an arbitrary prediction. -/
theorem analyze_empty_audio_short_circuits (cfg : AnalysisConfig) (model : Option ModelParams)
    (fp : FusionParams) (cat : Category) (audio : AudioSample)
    (hrate : audio.rate ≠ 0)
    (hshort : ∀ s ∈ vadSegments cfg.vadThreshold (normalizeAudio audio.samples),
      segmentDuration audio.rate s < cfg.minVoicedDuration) :
    process cfg audio = .error .emptyAudio
    ∧ analyze cfg model fp cat audio
      = .ok { emptyAudioFlagged := true, lowConfidence := true,
              predictions := none, feedback := none, fillerWordCount := 0 } := by
  have hproc : process cfg audio = .error .emptyAudio := by
    unfold process
    rw [if_neg hrate]
    have hkept : (vadSegments cfg.vadThreshold (normalizeAudio audio.samples)).filter
        (fun s => decide (cfg.minVoicedDuration ≤ segmentDuration audio.rate s)) = [] := by
      rw [List.filter_eq_nil_iff]
      intro s hs
      simp only [decide_eq_true_eq, not_le]
      exact hshort s hs
    simp [hkept]
  refine ⟨hproc, ?_⟩
  unfold analyze
  rw [hproc]

/-- Witness for C3 at a three-sample silent clip whose single detected run is
shorter than the two-second minimum voiced duration. -/
theorem analyze_empty_audio_witness :
    process ⟨16000, 2, 0, 0, true, true, true, true, true, defaultThresholds⟩ ⟨[0, 0, 0], 3⟩
      = .error .emptyAudio
    ∧ analyze ⟨16000, 2, 0, 0, true, true, true, true, true, defaultThresholds⟩ none
        ⟨1, [], [], [], [], []⟩ .technical ⟨[0, 0, 0], 3⟩
      = .ok { emptyAudioFlagged := true, lowConfidence := true,
              predictions := none, feedback := none, fillerWordCount := 0 } :=
  analyze_empty_audio_short_circuits ⟨16000, 2, 0, 0, true, true, true, true, true, defaultThresholds⟩
    none ⟨1, [], [], [], [], []⟩ .technical ⟨[0, 0, 0], 3⟩ (by norm_num)
    (by
      intro s hs
      have hnorm : normalizeAudio [0, 0, 0] = [0, 0, 0] := by
        norm_num [normalizeAudio, peakAmplitude]
      rw [hnorm] at hs
      have hvad : vadSegments (0 : ℚ) [0, 0, 0] = [⟨0, 3⟩] := by
        norm_num [vadSegments, vadGo]
      rw [show (⟨16000, 2, 0, 0, true, true, true, true, true, defaultThresholds⟩ :
        AnalysisConfig).vadThreshold = 0 from rfl] at hs
      rw [hvad] at hs
      rw [List.mem_singleton] at hs
      subst hs
      norm_num [segmentDuration])

/-- C1: whenever the pipeline analyzes an audio input successfully and
returns a prediction set, all five scalars lie in `[0,1]`; and a raw
prediction set with any value outside `[0,1]` is surfaced as
`InferenceError` by the validation stage rather than being clamped. -/
theorem analyze_predictions_in_unit_interval (cfg : AnalysisConfig)
    (model : Option ModelParams) (fp : FusionParams) (cat : Category)
    (audio : AudioSample) (r : AnalysisResult) (p : PredictionSet)
    (hok : analyze cfg model fp cat audio = .ok r)
    (hp : r.predictions = some p) :
    ((0 ≤ p.nervousness ∧ p.nervousness ≤ 1)
      ∧ (0 ≤ p.confidence ∧ p.confidence ≤ 1)
      ∧ (0 ≤ p.fluency ∧ p.fluency ≤ 1)
      ∧ (0 ≤ p.pace ∧ p.pace ≤ 1)
      ∧ (0 ≤ p.tone ∧ p.tone ≤ 1))
    ∧ (∀ q, ¬ predictionsInRange q → checkPredictions q = .error .inferenceError) := by
  refine ⟨?_, fun q hq => by unfold checkPredictions; rw [if_neg hq]⟩
  suffices hin : predictionsInRange p by exact hin
  unfold analyze at hok
  split at hok
  · cases hok
    simp at hp
  · cases hok
  · split at hok
    · cases hok
    · dsimp only at hok
      split at hok
      · cases hok
      · rename_i p' heq
        cases hok
        simp at hp
        obtain ⟨hin, hpe⟩ := checkPredictions_ok_iff.mp heq
        rw [← hp, ← hpe]
        exact hin

/-- Witness for C1: a successful analysis of a two-sample clip with all
feature streams disabled and trivial model parameters yields the prediction
set (0.5, 0.5, 0.5, 0.5, 0.5), whose scalars the theorem bounds. -/
theorem analyze_predictions_in_unit_interval_witness :
    ((0 ≤ (⟨1/2, 1/2, 1/2, 1/2, 1/2⟩ : PredictionSet).nervousness
        ∧ (⟨1/2, 1/2, 1/2, 1/2, 1/2⟩ : PredictionSet).nervousness ≤ 1)
      ∧ (0 ≤ (⟨1/2, 1/2, 1/2, 1/2, 1/2⟩ : PredictionSet).confidence
        ∧ (⟨1/2, 1/2, 1/2, 1/2, 1/2⟩ : PredictionSet).confidence ≤ 1)
      ∧ (0 ≤ (⟨1/2, 1/2, 1/2, 1/2, 1/2⟩ : PredictionSet).fluency
        ∧ (⟨1/2, 1/2, 1/2, 1/2, 1/2⟩ : PredictionSet).fluency ≤ 1)
      ∧ (0 ≤ (⟨1/2, 1/2, 1/2, 1/2, 1/2⟩ : PredictionSet).pace
        ∧ (⟨1/2, 1/2, 1/2, 1/2, 1/2⟩ : PredictionSet).pace ≤ 1)
      ∧ (0 ≤ (⟨1/2, 1/2, 1/2, 1/2, 1/2⟩ : PredictionSet).tone
        ∧ (⟨1/2, 1/2, 1/2, 1/2, 1/2⟩ : PredictionSet).tone ≤ 1))
    ∧ (∀ q, ¬ predictionsInRange q → checkPredictions q = .error .inferenceError) :=
  analyze_predictions_in_unit_interval
    ⟨16000, 1, 0, 0, false, false, false, false, false, defaultThresholds⟩
    (some ⟨[], 0, [], 0, [], 0, [], 0, [], 0⟩) ⟨0, [], [], [], [], []⟩ .technical ⟨[0, 0], 1⟩
    ⟨false, false, some ⟨1/2, 1/2, 1/2, 1/2, 1/2⟩,
      some (generate ⟨1/2, 1/2, 1/2, 1/2, 1/2⟩ .technical defaultThresholds), 0⟩
    ⟨1/2, 1/2, 1/2, 1/2, 1/2⟩
    (by
      have hproc : process ⟨16000, 1, 0, 0, false, false, false, false, false, defaultThresholds⟩
          ⟨[0, 0], 1⟩ = .ok ⟨[0, 0], [⟨0, 2⟩], 0⟩ := by
        norm_num [process, normalizeAudio, peakAmplitude, vadSegments, vadGo,
          segmentDuration, List.filter]
      unfold analyze
      rw [hproc]
      have hpred : predict ⟨[], 0, [], 0, [], 0, [], 0, [], 0⟩
          (fuse ⟨0, [], [], [], [], []⟩
            (extract ⟨16000, 1, 0, 0, false, false, false, false, false, defaultThresholds⟩ [0, 0]))
          = ⟨1/2, 1/2, 1/2, 1/2, 1/2⟩ := by
        norm_num [predict, extract, fuse, allStreams, contribution, attnWeight, streamScore,
          totalScore, FeatureVector.stream, FusionParams.proj, matVec, scaleVec, vecAdd, dotQ,
          sumAbs, boundedActivation, List.replicate]
      dsimp only
      rw [hpred]
      have hcheck : checkPredictions (⟨1/2, 1/2, 1/2, 1/2, 1/2⟩ : PredictionSet)
          = .ok ⟨1/2, 1/2, 1/2, 1/2, 1/2⟩ := by
        rw [checkPredictions_ok_iff]
        norm_num [predictionsInRange, scalarInRange]
      rw [hcheck])
    rfl

end Mindmirror
